import Mathlib

/-!
Verification of the status logic of marvin-mk2 (`src/marvin/status.py`).

Each webhook handler and command handler is embedded as a pure function
returning the ordered list of externally observable actions it performs
(label mutations, posted comments, sleeps, triage-runner notifications).
-/

namespace Marvin

/-- The five mutually exclusive status labels. -/
def status_labels : List String :=
  ["needs_reviewer", "awaiting_reviewer", "awaiting_changes",
   "needs_merger", "awaiting_merger"]

/-- `NO_SELF_REVIEW_TEXT` from `src/marvin/status.py` (after `.strip()`). -/
def NO_SELF_REVIEW_TEXT : String :=
  "The PR author cannot set the status to `needs_merger`. Please wait for an external review.\n\nIf you are not the PR author and you are reading this, please review the [usage](https://github.com/timokau/marvin-mk2/blob/deployed/USAGE.md) of this bot. You may be able to help. Please make an honest attempt to resolve all outstanding issues before setting to `needs_merger`."

/-- One externally observable action of a handler, in program order. -/
inductive Action where
  | setStatus : String → Action
  | postComment : String → String → Action
  | sleep : Nat → Action
  | runSoon : Nat → Action
deriving DecidableEq, Repr

/-- The command triggers registered in `src/marvin/status.py`, in
registration order. -/
def registered_commands : List String :=
  ["/status needs_reviewer", "/status awaiting_changes",
   "/status awaiting_reviewer", "/status needs_merger",
   "/status awaiting_merger"]

/-- Whether `p` occurs as a prefix of `cs` (character lists). -/
def matchesAt : List Char → List Char → Bool
  | [], _ => true
  | _ :: _, [] => false
  | p :: ps, c :: cs => p == c && matchesAt ps cs

/-- Modelled from the spec: `CommandRouter.find_commands` lives in
`marvin/command_router.py`, which is not under `src/`.  Per §4.1 it scans
the text for every non-overlapping occurrence of a registered trigger
string, returning matches in order of appearance.  `fuel` bounds the
number of scan steps; each step consumes at least one character, so
`fuel = chars.length` is always enough. -/
def scan (cmds : List String) : Nat → List Char → List String
  | 0, _ => []
  | _, [] => []
  | fuel + 1, c :: rest =>
    match cmds.find? (fun cmd => matchesAt cmd.data (c :: rest)) with
    | some cmd => cmd :: scan cmds fuel (List.drop (cmd.length - 1) rest)
    | none => scan cmds fuel rest

/-- Modelled from the spec: `find_commands` over the registered triggers. -/
def find_commands (text : String) : List String :=
  scan registered_commands text.data.length text.data

/-- Modelled from the spec: `gh_util.set_issue_status` is not under `src/`.
Per §4.5 it is exclusive and idempotent: it replaces any existing status
label with exactly `status`, leaving non-status labels untouched. -/
def set_issue_status (labels : List String) (status : String) : List String :=
  labels.filter (fun l => l ∉ status_labels) ++ [status]

/-- Payload of an `issue_comment` / `pull_request_review_comment`
`created` event, restricted to the fields `issue_comment_event` reads. -/
structure CommentEvent where
  commentBody : String
  commentUserId : Nat
  issueUserId : Nat
  labels : List String
deriving Repr

/-- Payload of a `pull_request_review` `submitted` event, restricted to
the fields `pull_request_review_submitted` reads.  The review body may be
null (`none`). -/
structure ReviewEvent where
  reviewBody : Option String
  reviewUserId : Nat
  reviewState : String
  issueUserId : Nat
  labels : List String
deriving Repr

/-- Context given to a command handler: the issue, the comment that
contained the command, and the event's installation id. -/
structure CommandContext where
  issueUserId : Nat
  commentUserId : Nat
  commentsUrl : String
  installationId : Nat
deriving Repr

/-- `pull_request_ready_for_review` (`status.py` lines 25-36). -/
def pull_request_ready_for_review (labels : List String) : List Action :=
  if "needs_merger" ∉ labels ∧ "awaiting_reviewer" ∉ labels ∧
      "awaiting_merger" ∉ labels then
    [Action.setStatus "needs_reviewer"]
  else []

/-- `pull_request_synchronize` (`status.py` lines 39-52). -/
def pull_request_synchronize (labels : List String) : List Action :=
  if "needs_merger" ∈ labels ∨ "awaiting_changes" ∈ labels ∨
      "awaiting_merger" ∈ labels then
    [Action.setStatus "awaiting_reviewer"]
  else []

/-- `pull_request_assigned` (`status.py` lines 55-64), registered for the
`assigned` and `review_requested` actions. -/
def pull_request_assigned (labels : List String) : List Action :=
  if "needs_reviewer" ∈ labels then [Action.setStatus "awaiting_reviewer"]
  else []

/-- `issue_comment_event` (`status.py` lines 67-87), registered for
`issue_comment` and `pull_request_review_comment` `created` events. -/
def issue_comment_event (e : CommentEvent) : List Action :=
  if (find_commands e.commentBody).length > 0 then []
  else if (e.issueUserId == e.commentUserId) &&
      decide ("awaiting_changes" ∈ e.labels) then
    [Action.setStatus "awaiting_reviewer"]
  else if !(e.issueUserId == e.commentUserId) &&
      decide ("needs_reviewer" ∈ e.labels) then
    [Action.setStatus "awaiting_reviewer"]
  else []

/-- `pull_request_review_submitted` (`status.py` lines 90-117).  The
command scan is short-circuited on a null review body, mirroring
`body is not None and len(find_commands(body)) > 0`. -/
def pull_request_review_submitted (e : ReviewEvent) : List Action :=
  if (match e.reviewBody with
      | some b => decide ((find_commands b).length > 0)
      | none => false) = true then []
  else if e.issueUserId == e.reviewUserId then []
  else if e.reviewState == "changes_requested" then
    [Action.setStatus "awaiting_changes"]
  else if "needs_reviewer" ∈ e.labels then
    [Action.setStatus "awaiting_reviewer"]
  else []

/-- `needs_reviewer_command` (`status.py` lines 120-126): set the status,
sleep two seconds, then notify the installation's triage runner. -/
def needs_reviewer_command (c : CommandContext) : List Action :=
  [Action.setStatus "needs_reviewer", Action.sleep 2,
   Action.runSoon c.installationId]

/-- `awaiting_changes_command` (`status.py` lines 129-133). -/
def awaiting_changes_command (_c : CommandContext) : List Action :=
  [Action.setStatus "awaiting_changes"]

/-- `awaiting_reviewer_command` (`status.py` lines 136-140). -/
def awaiting_reviewer_command (_c : CommandContext) : List Action :=
  [Action.setStatus "awaiting_reviewer"]

/-- `needs_merger_command` (`status.py` lines 143-162): rejected with a
comment when invoked by the PR author, otherwise sets the status and
notifies the triage runner (with no sleep). -/
def needs_merger_command (c : CommandContext) : List Action :=
  if c.issueUserId == c.commentUserId then
    [Action.postComment c.commentsUrl NO_SELF_REVIEW_TEXT]
  else
    [Action.setStatus "needs_merger", Action.runSoon c.installationId]

/-- `awaiting_merger_command` (`status.py` lines 165-181): rejected with a
comment when invoked by the PR author, otherwise sets the status. -/
def awaiting_merger_command (c : CommandContext) : List Action :=
  if c.issueUserId == c.commentUserId then
    [Action.postComment c.commentsUrl NO_SELF_REVIEW_TEXT]
  else
    [Action.setStatus "awaiting_merger"]

/-- The handler bound to each registered trigger (`status.py` lines
120-181, via `register_command`). -/
def run_command (c : CommandContext) (cmd : String) : List Action :=
  if cmd = "/status needs_reviewer" then needs_reviewer_command c
  else if cmd = "/status awaiting_changes" then awaiting_changes_command c
  else if cmd = "/status awaiting_reviewer" then awaiting_reviewer_command c
  else if cmd = "/status needs_merger" then needs_merger_command c
  else if cmd = "/status awaiting_merger" then awaiting_merger_command c
  else []

/-- "No command occurs in this (possibly null) body." -/
def noCommandIn : Option String → Prop
  | some b => find_commands b = []
  | none => True

instance : DecidablePred noCommandIn := fun b => by
  unfold noCommandIn
  cases b <;> infer_instance

/-- Whether a trace notifies a triage runner. -/
def hasRunSoon (t : List Action) : Bool :=
  t.any fun a => match a with
    | Action.runSoon _ => true
    | _ => false

/-- Effect of a single action on an issue's label set; only
`set_issue_status` mutates labels. -/
def apply_action (labels : List String) : Action → List String
  | Action.setStatus s => set_issue_status labels s
  | _ => labels

/-- Effect of a whole handler trace on an issue's label set. -/
def apply_trace (labels : List String) (t : List Action) : List String :=
  t.foldl apply_action labels

/-- One webhook delivery, with the payload fields the handlers read other
than the label set (which is read from the issue at dispatch time). -/
inductive Event where
  | prReadyForReview
  | prSynchronize
  | prAssigned
  | comment (body : String) (commentUserId issueUserId : Nat)
      (ctx : CommandContext)
  | review (body : Option String) (reviewUserId : Nat) (state : String)
      (issueUserId : Nat) (ctx : CommandContext)
deriving Repr

/-- Modelled from the spec: the dispatch loop of §4.1 (the webhook layer
and `CommandRouter` driver are not under `src/`): if the body of a comment
or review event matches commands, each matched command's handler runs in
sequence; otherwise the event handler's automatic inference applies. -/
def handle_event (labels : List String) : Event → List Action
  | Event.prReadyForReview => pull_request_ready_for_review labels
  | Event.prSynchronize => pull_request_synchronize labels
  | Event.prAssigned => pull_request_assigned labels
  | Event.comment body cu iu ctx =>
    let cmds := find_commands body
    if cmds.length > 0 then (cmds.map (run_command ctx)).flatten
    else issue_comment_event ⟨body, cu, iu, labels⟩
  | Event.review body ru st iu ctx =>
    match body with
    | some b =>
      let cmds := find_commands b
      if cmds.length > 0 then (cmds.map (run_command ctx)).flatten
      else pull_request_review_submitted ⟨body, ru, st, iu, labels⟩
    | none => pull_request_review_submitted ⟨body, ru, st, iu, labels⟩

/-- Process one delivery: compute the trace from the labels read at
dispatch time and apply every label mutation in it. -/
def process_event (labels : List String) (e : Event) : List String :=
  apply_trace labels (handle_event labels e)

/-- Process a sequence of deliveries in order. -/
def process_events (labels : List String) (es : List Event) : List String :=
  es.foldl process_event labels

/-- At most one status label is attached. -/
def atMostOneStatus (labels : List String) : Prop :=
  ∀ s₁ ∈ labels, ∀ s₂ ∈ labels,
    s₁ ∈ status_labels → s₂ ∈ status_labels → s₁ = s₂

instance : DecidablePred atMostOneStatus := fun labels => by
  unfold atMostOneStatus
  infer_instance

/-- Whether `pat` occurs as a contiguous substring of `text`. -/
def occursAux (pat : List Char) : List Char → Bool
  | [] => matchesAt pat []
  | c :: rest => matchesAt pat (c :: rest) || occursAux pat rest

/-- String-level substring occurrence. -/
def occursIn (pat text : String) : Bool :=
  occursAux pat.data text.data

/-- C1: for the `/status needs_merger` and `/status awaiting_merger`
commands, if the invoking comment's author id equals the issue author's
id, no status transition occurs, exactly one comment with the fixed
rejection text is posted to the issue's comments endpoint, and the triage
runner is not notified; if the ids differ, the requested status is set. -/
theorem merger_commands_self_review_guard (c : CommandContext) :
    (c.issueUserId = c.commentUserId →
      needs_merger_command c =
        [Action.postComment c.commentsUrl NO_SELF_REVIEW_TEXT] ∧
      awaiting_merger_command c =
        [Action.postComment c.commentsUrl NO_SELF_REVIEW_TEXT]) ∧
    (c.issueUserId ≠ c.commentUserId →
      needs_merger_command c =
        [Action.setStatus "needs_merger", Action.runSoon c.installationId] ∧
      awaiting_merger_command c = [Action.setStatus "awaiting_merger"]) := by
  constructor
  · intro h
    simp [needs_merger_command, awaiting_merger_command, h]
  · intro h
    simp [needs_merger_command, awaiting_merger_command, h]

/-- Witness for C1 at concrete inputs. -/
theorem merger_commands_self_review_guard_witness :
    needs_merger_command ⟨1, 1, "u", 7⟩ =
      [Action.postComment "u" NO_SELF_REVIEW_TEXT] ∧
    awaiting_merger_command ⟨1, 2, "u", 7⟩ =
      [Action.setStatus "awaiting_merger"] :=
  ⟨((merger_commands_self_review_guard ⟨1, 1, "u", 7⟩).1 rfl).1,
   ((merger_commands_self_review_guard ⟨1, 2, "u", 7⟩).2 (by decide)).2⟩

/-- C2: if a comment body, or a non-null review body, contains at least
one recognized command, the automatic status-inference logic of the
corresponding handler performs no label transition for that event. -/
theorem command_precedence (e : CommentEvent) (r : ReviewEvent) :
    (find_commands e.commentBody ≠ [] → issue_comment_event e = []) ∧
    (∀ b, r.reviewBody = some b → find_commands b ≠ [] →
      pull_request_review_submitted r = []) := by
  constructor
  · intro h
    simp [issue_comment_event, List.length_pos.mpr h]
  · intro b hb h
    simp [pull_request_review_submitted, hb, List.length_pos.mpr h]

/-- Witness for C2 at concrete inputs. -/
theorem command_precedence_witness :
    issue_comment_event ⟨"/status needs_merger", 2, 1, ["needs_reviewer"]⟩
      = [] ∧
    pull_request_review_submitted
      ⟨some "/status awaiting_merger", 2, "changes_requested", 1, []⟩
      = [] :=
  ⟨(command_precedence ⟨"/status needs_merger", 2, 1, ["needs_reviewer"]⟩
      ⟨some "/status awaiting_merger", 2, "changes_requested", 1, []⟩).1
      (by decide),
   (command_precedence ⟨"/status needs_merger", 2, 1, ["needs_reviewer"]⟩
      ⟨some "/status awaiting_merger", 2, "changes_requested", 1, []⟩).2
      "/status awaiting_merger" rfl (by decide)⟩

/-- C3: on `ready_for_review`, the status is set to `needs_reviewer` iff
none of `needs_merger`, `awaiting_reviewer`, `awaiting_merger` is in the
current label set; when any of them is present, no transition occurs. -/
theorem ready_for_review_guard (labels : List String) :
    (pull_request_ready_for_review labels =
        [Action.setStatus "needs_reviewer"] ↔
      "needs_merger" ∉ labels ∧ "awaiting_reviewer" ∉ labels ∧
        "awaiting_merger" ∉ labels) ∧
    ("needs_merger" ∈ labels ∨ "awaiting_reviewer" ∈ labels ∨
        "awaiting_merger" ∈ labels →
      pull_request_ready_for_review labels = []) := by
  by_cases h : "needs_merger" ∉ labels ∧ "awaiting_reviewer" ∉ labels ∧
      "awaiting_merger" ∉ labels
  · refine ⟨by simp [pull_request_ready_for_review, h], ?_⟩
    intro hmem
    exact absurd hmem (by tauto)
  · refine ⟨?_, fun _ => by simp [pull_request_ready_for_review, h]⟩
    simp [pull_request_ready_for_review, h]

/-- Witness for C3 at a concrete input (the iff has a hypothesis-bearing
direction). -/
theorem ready_for_review_guard_witness :
    pull_request_ready_for_review [] = [Action.setStatus "needs_reviewer"] ∧
    pull_request_ready_for_review ["awaiting_merger"] = [] :=
  ⟨(ready_for_review_guard []).1.mpr (by decide),
   (ready_for_review_guard ["awaiting_merger"]).2 (by decide)⟩

/-- C4: on a review `submitted` event without commands and with reviewer
distinct from the PR author: `changes_requested` sets `awaiting_changes`
unconditionally; otherwise `needs_reviewer` present sets
`awaiting_reviewer`; otherwise nothing happens. -/
theorem review_submitted_non_author (e : ReviewEvent)
    (hnc : noCommandIn e.reviewBody)
    (hne : e.issueUserId ≠ e.reviewUserId) :
    (e.reviewState = "changes_requested" →
      pull_request_review_submitted e =
        [Action.setStatus "awaiting_changes"]) ∧
    (e.reviewState ≠ "changes_requested" → "needs_reviewer" ∈ e.labels →
      pull_request_review_submitted e =
        [Action.setStatus "awaiting_reviewer"]) ∧
    (e.reviewState ≠ "changes_requested" → "needs_reviewer" ∉ e.labels →
      pull_request_review_submitted e = []) := by
  have hcmd : (match e.reviewBody with
      | some b => decide ((find_commands b).length > 0)
      | none => false) = false := by
    unfold noCommandIn at hnc
    cases hb : e.reviewBody with
    | none => rfl
    | some b => rw [hb] at hnc; simp [hnc]
  have hba : (e.issueUserId == e.reviewUserId) = false :=
    beq_eq_false_iff_ne.mpr hne
  refine ⟨fun hst => ?_, fun hst hmem => ?_, fun hst hmem => ?_⟩
  · simp [pull_request_review_submitted, hcmd, hba, hst]
  · simp [pull_request_review_submitted, hcmd, hba, hst, hmem]
  · simp [pull_request_review_submitted, hcmd, hba, hst, hmem]

/-- Witness for C4 at concrete inputs. -/
theorem review_submitted_non_author_witness :
    pull_request_review_submitted
        ⟨some "lgtm", 2, "changes_requested", 1, ["needs_reviewer"]⟩ =
      [Action.setStatus "awaiting_changes"] ∧
    pull_request_review_submitted ⟨none, 2, "approved", 1, ["needs_reviewer"]⟩
      = [Action.setStatus "awaiting_reviewer"] :=
  ⟨(review_submitted_non_author
      ⟨some "lgtm", 2, "changes_requested", 1, ["needs_reviewer"]⟩
      (by decide) (by decide)).1 rfl,
   (review_submitted_non_author ⟨none, 2, "approved", 1, ["needs_reviewer"]⟩
      trivial (by decide)).2.1 (by decide) (by decide)⟩

/-- C5: a review `submitted` event without commands whose reviewer is the
PR author performs no label transition, regardless of review state or
current labels. -/
theorem review_submitted_self_review_noop (e : ReviewEvent)
    (hnc : noCommandIn e.reviewBody)
    (heq : e.issueUserId = e.reviewUserId) :
    pull_request_review_submitted e = [] := by
  have hcmd : (match e.reviewBody with
      | some b => decide ((find_commands b).length > 0)
      | none => false) = false := by
    unfold noCommandIn at hnc
    cases hb : e.reviewBody with
    | none => rfl
    | some b => rw [hb] at hnc; simp [hnc]
  simp [pull_request_review_submitted, hcmd, heq]

/-- Witness for C5 at a concrete input. -/
theorem review_submitted_self_review_noop_witness :
    pull_request_review_submitted
      ⟨some "fyi", 1, "changes_requested", 1, ["needs_reviewer"]⟩ = [] :=
  review_submitted_self_review_noop
    ⟨some "fyi", 1, "changes_requested", 1, ["needs_reviewer"]⟩
    (by decide) rfl

/-- C6: a comment `created` event without commands sets
`awaiting_reviewer` when the commenter is the author and
`awaiting_changes` is present, or when the commenter is not the author
and `needs_reviewer` is present; in all other cases nothing happens. -/
theorem comment_created_inference (e : CommentEvent)
    (hnc : find_commands e.commentBody = []) :
    (e.issueUserId = e.commentUserId → "awaiting_changes" ∈ e.labels →
      issue_comment_event e = [Action.setStatus "awaiting_reviewer"]) ∧
    (e.issueUserId ≠ e.commentUserId → "needs_reviewer" ∈ e.labels →
      issue_comment_event e = [Action.setStatus "awaiting_reviewer"]) ∧
    (¬(e.issueUserId = e.commentUserId ∧ "awaiting_changes" ∈ e.labels) →
      ¬(e.issueUserId ≠ e.commentUserId ∧ "needs_reviewer" ∈ e.labels) →
      issue_comment_event e = []) := by
  refine ⟨fun heq hmem => ?_, fun hne hmem => ?_, fun h1 h2 => ?_⟩
  · simp [issue_comment_event, hnc, heq, hmem]
  · simp [issue_comment_event, hnc, beq_eq_false_iff_ne.mpr hne, hmem]
  · by_cases heq : e.issueUserId = e.commentUserId
    · have : "awaiting_changes" ∉ e.labels := fun hm => h1 ⟨heq, hm⟩
      simp [issue_comment_event, hnc, heq, this]
    · have : "needs_reviewer" ∉ e.labels := fun hm => h2 ⟨heq, hm⟩
      simp [issue_comment_event, hnc, beq_eq_false_iff_ne.mpr heq, this]

/-- Witness for C6 at concrete inputs. -/
theorem comment_created_inference_witness :
    issue_comment_event ⟨"thanks", 1, 1, ["awaiting_changes"]⟩ =
      [Action.setStatus "awaiting_reviewer"] ∧
    issue_comment_event ⟨"thanks", 1, 1, ["needs_reviewer"]⟩ = [] :=
  ⟨(comment_created_inference ⟨"thanks", 1, 1, ["awaiting_changes"]⟩
      (by decide)).1 rfl (by decide),
   (comment_created_inference ⟨"thanks", 1, 1, ["needs_reviewer"]⟩
      (by decide)).2.2 (by decide) (by decide)⟩

/-- C7 counterexample: `needs_merger_command` invoked by a non-author
notifies the triage runner immediately after the label mutation — its
trace contains no sleep at all — refuting "in each such case the
notification happens only after a short fixed settle delay". -/
theorem merger_notification_no_delay :
    needs_merger_command ⟨1, 2, "u", 5⟩ =
      [Action.setStatus "needs_merger", Action.runSoon 5] ∧
    (needs_merger_command ⟨1, 2, "u", 5⟩).all
      (fun a => match a with | Action.sleep _ => false | _ => true)
      = true := by
  constructor <;> decide

/-- C7 (amended): the triage runner is notified exactly by the
`needs_reviewer` command and the unblocked `needs_merger` command (never
by the other commands, the automatic handlers, or a blocked command);
the `needs_reviewer` command sleeps two seconds between the label
mutation and the notification, while the `needs_merger` command notifies
immediately after the mutation, with no delay. -/
theorem triage_notification_policy (c : CommandContext)
    (labels : List String) (e : CommentEvent) (r : ReviewEvent) :
    needs_reviewer_command c =
      [Action.setStatus "needs_reviewer", Action.sleep 2,
       Action.runSoon c.installationId] ∧
    (c.issueUserId ≠ c.commentUserId →
      needs_merger_command c =
        [Action.setStatus "needs_merger",
         Action.runSoon c.installationId]) ∧
    (c.issueUserId = c.commentUserId →
      hasRunSoon (needs_merger_command c) = false) ∧
    hasRunSoon (awaiting_changes_command c) = false ∧
    hasRunSoon (awaiting_reviewer_command c) = false ∧
    hasRunSoon (awaiting_merger_command c) = false ∧
    hasRunSoon (pull_request_ready_for_review labels) = false ∧
    hasRunSoon (pull_request_synchronize labels) = false ∧
    hasRunSoon (pull_request_assigned labels) = false ∧
    hasRunSoon (issue_comment_event e) = false ∧
    hasRunSoon (pull_request_review_submitted r) = false := by
  refine ⟨rfl, fun h => by simp [needs_merger_command, h],
    fun h => by simp [needs_merger_command, hasRunSoon, h],
    rfl, rfl, ?_, ?_, ?_, ?_, ?_, ?_⟩
  · unfold awaiting_merger_command
    split <;> rfl
  · unfold pull_request_ready_for_review
    split <;> rfl
  · unfold pull_request_synchronize
    split <;> rfl
  · unfold pull_request_assigned
    split <;> rfl
  · unfold issue_comment_event
    split
    · rfl
    · split
      · rfl
      · split <;> rfl
  · unfold pull_request_review_submitted
    split
    · rfl
    · split
      · rfl
      · split
        · rfl
        · split <;> rfl

/-- Witness for C7 (amended) at concrete inputs. -/
theorem triage_notification_policy_witness :
    needs_merger_command ⟨1, 2, "u", 9⟩ =
      [Action.setStatus "needs_merger", Action.runSoon 9] ∧
    hasRunSoon (needs_merger_command ⟨3, 3, "u", 9⟩) = false :=
  ⟨(triage_notification_policy ⟨1, 2, "u", 9⟩ [] ⟨"", 0, 0, []⟩
      ⟨none, 0, "", 1, []⟩).2.1 (by decide),
   (triage_notification_policy ⟨3, 3, "u", 9⟩ [] ⟨"", 0, 0, []⟩
      ⟨none, 0, "", 1, []⟩).2.2.1 rfl⟩

/-- `set_issue_status` always leaves at most one status label, whatever
the previous label set was. -/
theorem set_issue_status_atMostOne (labels : List String) (s : String) :
    atMostOneStatus (set_issue_status labels s) := by
  intro s₁ h₁ s₂ h₂ hs₁ hs₂
  unfold set_issue_status at h₁ h₂
  simp only [List.mem_append, List.mem_filter, List.mem_singleton,
    decide_eq_true_eq] at h₁ h₂
  rcases h₁ with ⟨_, hno⟩ | h₁
  · exact absurd hs₁ hno
  rcases h₂ with ⟨_, hno⟩ | h₂
  · exact absurd hs₂ hno
  rw [h₁, h₂]

/-- Applying one action preserves the single-status invariant. -/
theorem apply_action_atMostOne (labels : List String) (a : Action)
    (h : atMostOneStatus labels) :
    atMostOneStatus (apply_action labels a) := by
  cases a with
  | setStatus s => exact set_issue_status_atMostOne labels s
  | postComment u b => exact h
  | sleep t => exact h
  | runSoon i => exact h

/-- Applying a whole trace preserves the single-status invariant. -/
theorem apply_trace_atMostOne (t : List Action) (labels : List String)
    (h : atMostOneStatus labels) :
    atMostOneStatus (apply_trace labels t) := by
  induction t generalizing labels with
  | nil => exact h
  | cons a t ih => exact ih _ (apply_action_atMostOne labels a h)

/-- C8: starting from an issue with at most one status label, any
sequence of processed events leaves at most one status label, because
every transition goes through the exclusive `set_issue_status`. -/
theorem status_label_exclusive (labels : List String)
    (h : atMostOneStatus labels) (es : List Event) :
    atMostOneStatus (process_events labels es) := by
  induction es generalizing labels with
  | nil => exact h
  | cons e es ih => exact ih _ (apply_trace_atMostOne _ _ h)

/-- Witness for C8 at a concrete initial label set and event sequence. -/
theorem status_label_exclusive_witness :
    atMostOneStatus ["bug", "needs_reviewer"] ∧
    atMostOneStatus (process_events ["bug", "needs_reviewer"]
      [Event.prAssigned,
       Event.comment "/status needs_merger" 2 1 ⟨1, 2, "u", 0⟩]) :=
  ⟨by decide, status_label_exclusive _ (by decide) _⟩

set_option maxRecDepth 4000 in
/-- C9 counterexample: the fixed rejection text never mentions
`awaiting_merger` — it does not name both target statuses — even though
it is exactly the comment the blocked `awaiting_merger` command posts. -/
theorem no_self_review_text_missing_status :
    occursIn "awaiting_merger" NO_SELF_REVIEW_TEXT = false ∧
    awaiting_merger_command ⟨1, 1, "u", 0⟩ =
      [Action.postComment "u" NO_SELF_REVIEW_TEXT] := by
  constructor <;> decide

set_option maxRecDepth 4000 in
/-- C9 (amended): both merger commands post the same single rejection
text when blocked; it explains that the PR author cannot set the status
to `needs_merger` (naming only that status, not `awaiting_merger`) and
asks to resolve all outstanding issues first. -/
theorem no_self_review_text_content :
    needs_merger_command ⟨1, 1, "u", 0⟩ =
      [Action.postComment "u" NO_SELF_REVIEW_TEXT] ∧
    awaiting_merger_command ⟨1, 1, "u", 0⟩ =
      [Action.postComment "u" NO_SELF_REVIEW_TEXT] ∧
    occursIn "The PR author cannot set the status to `needs_merger`"
      NO_SELF_REVIEW_TEXT = true ∧
    occursIn "resolve all outstanding issues" NO_SELF_REVIEW_TEXT = true ∧
    occursIn "awaiting_merger" NO_SELF_REVIEW_TEXT = false := by
  refine ⟨by decide, by decide, by decide, by decide, by decide⟩

/-- C10: a review event with a null body short-circuits the command scan
and is processed exactly as one whose body contains no command: the
automatic inference over reviewer identity, review state and labels runs
unchanged. -/
theorem review_null_body_safe (e : ReviewEvent) (h : e.reviewBody = none)
    (b : String) (hb : find_commands b = []) :
    pull_request_review_submitted e =
      pull_request_review_submitted
        ⟨some b, e.reviewUserId, e.reviewState, e.issueUserId,
         e.labels⟩ := by
  simp [pull_request_review_submitted, h, hb]

/-- Witness for C10 at a concrete input. -/
theorem review_null_body_safe_witness :
    pull_request_review_submitted ⟨none, 2, "changes_requested", 1, []⟩ =
      pull_request_review_submitted
        ⟨some "ok", 2, "changes_requested", 1, []⟩ :=
  review_null_body_safe ⟨none, 2, "changes_requested", 1, []⟩ rfl "ok"
    (by decide)

end Marvin
